import Mathlib

/-!
Verification development for the `deltae` color-difference library.

The Rust sources are shallowly embedded in Lean: the fixed-size matrix types
become polymorphic structures over a numeric carrier `α`, machine floats are
modelled by exact rationals `ℚ` (and by `ℝ` where the code calls
transcendental functions such as `atan2`, `sqrt` and `powf`), and fallible
constructors return `Except ValueError`.  A dedicated carrier `F32` with IEEE
special values (infinities and NaN) is used where the behaviour being checked
is precisely the production of non-finite values.

Definitions mirror `src/matrix.rs`, `src/chromatic_adaptation.rs`,
`src/illuminant.rs`, `src/rgb.rs`, `src/nominalize.rs`, `src/color.rs`,
`src/convert.rs`, `src/validate.rs`, `src/parse.rs`, `src/eq.rs` and
`src/lib.rs`, keeping the source names wherever Lean allows.
-/

namespace Deltae

/-- Decidable equality for `Except` results (Rust's `Result` admits
`PartialEq` whenever its components do). -/
instance {ε β : Type} [DecidableEq ε] [DecidableEq β] : DecidableEq (Except ε β) := fun a b =>
  match a, b with
  | .ok x, .ok y =>
      if h : x = y then isTrue (by rw [h])
      else isFalse (fun he => h (Except.ok.inj he))
  | .error x, .error y =>
      if h : x = y then isTrue (by rw [h])
      else isFalse (fun he => h (Except.error.inj he))
  | .ok _, .error _ => isFalse (fun he => Except.noConfusion he)
  | .error _, .ok _ => isFalse (fun he => Except.noConfusion he)

/-- The 3x1 column vector of `src/matrix.rs` (`pub struct Matrix3x1 { inner: [f32; 3] }`);
`m0 m1 m2` are `inner[0] inner[1] inner[2]`. -/
structure Matrix3x1 (α : Type) where
  m0 : α
  m1 : α
  m2 : α
deriving DecidableEq, Repr

/-- The 3x3 matrix of `src/matrix.rs` (`pub struct Matrix3x3 { inner: [f32; 9] }`),
stored column-major exactly as the source: `iK` is `inner[K]`. -/
structure Matrix3x3 (α : Type) where
  i0 : α
  i1 : α
  i2 : α
  i3 : α
  i4 : α
  i5 : α
  i6 : α
  i7 : α
  i8 : α
deriving DecidableEq, Repr

variable {α : Type}

/-- `Matrix3x3::new`: takes the nine entries in row-major order and stores
them column-major (`inner = [x0,x1,x2, y0,y1,y2, z0,z1,z2]`). -/
def Matrix3x3.new (x0 y0 z0 x1 y1 z1 x2 y2 z2 : α) : Matrix3x3 α :=
  ⟨x0, x1, x2, y0, y1, y2, z0, z1, z2⟩

/-- `Index<(usize, usize)> for Matrix3x3`: `self[(c, r)] = self.inner[c * 3 + r]`
(first index is the column, second the row).  The out-of-range panic of the
source is ruled out by using `Fin 3` indices. -/
def Matrix3x3.idx (m : Matrix3x3 α) (c r : Fin 3) : α :=
  match c, r with
  | 0, 0 => m.i0
  | 0, 1 => m.i1
  | 0, 2 => m.i2
  | 1, 0 => m.i3
  | 1, 1 => m.i4
  | 1, 2 => m.i5
  | 2, 0 => m.i6
  | 2, 1 => m.i7
  | 2, 2 => m.i8

/-- `Matrix3x3::col`: returns column `col` as a 3x1 matrix,
`Matrix3x1::new(self[(col,0)], self[(col,1)], self[(col,2)])`. -/
def Matrix3x3.col (m : Matrix3x3 α) (c : Fin 3) : Matrix3x1 α :=
  ⟨m.idx c 0, m.idx c 1, m.idx c 2⟩

/-- `Matrix3x3::from_cols`: builds the matrix whose columns are the three
given vectors (the `matrix3x3!` rows are `colK[0]`, `colK[1]`, `colK[2]`). -/
def Matrix3x3.from_cols (c0 c1 c2 : Matrix3x1 α) : Matrix3x3 α :=
  Matrix3x3.new c0.m0 c1.m0 c2.m0 c0.m1 c1.m1 c2.m1 c0.m2 c1.m2 c2.m2

/-- `impl Mul<Matrix3x1> for Matrix3x3`: the standard matrix-vector product,
row `r` of the result is `Σ_k self[(k, r)] * rhs[k]`. -/
def Matrix3x3.mulVec [Add α] [Mul α] (m : Matrix3x3 α) (v : Matrix3x1 α) : Matrix3x1 α :=
  ⟨m.idx 0 0 * v.m0 + m.idx 1 0 * v.m1 + m.idx 2 0 * v.m2,
   m.idx 0 1 * v.m0 + m.idx 1 1 * v.m1 + m.idx 2 1 * v.m2,
   m.idx 0 2 * v.m0 + m.idx 1 2 * v.m1 + m.idx 2 2 * v.m2⟩

/-- `impl Mul<Matrix3x3> for Matrix3x1`: `self * rhs` is defined as `rhs * self`. -/
def Matrix3x1.mulM33 [Add α] [Mul α] (v : Matrix3x1 α) (m : Matrix3x3 α) : Matrix3x1 α :=
  m.mulVec v

/-- `impl Mul<Self> for Matrix3x3`:
`Matrix3x3::from_cols(self.col(0) * rhs, self.col(1) * rhs, self.col(2) * rhs)`. -/
def Matrix3x3.mul [Add α] [Mul α] (a b : Matrix3x3 α) : Matrix3x3 α :=
  Matrix3x3.from_cols ((a.col 0).mulM33 b) ((a.col 1).mulM33 b) ((a.col 2).mulM33 b)

/-- The standard mathematical 3x3 product stated by the spec
("Matrix × Matrix → Matrix (standard 3x3 product)"): the entry at row `r`,
column `c` of `stdProd a b` is `Σ_k a[row r, col k] * b[row k, col c]`,
where `a[row r, col k]` is `a.idx k r` in the source's `(col, row)` indexing.
This definition follows the spec's words; it is compared against
`Matrix3x3.mul`, which is translated from the source. -/
def Matrix3x3.stdProd [Add α] [Mul α] (a b : Matrix3x3 α) : Matrix3x3 α :=
  Matrix3x3.new
    (a.idx 0 0 * b.idx 0 0 + a.idx 1 0 * b.idx 0 1 + a.idx 2 0 * b.idx 0 2)
    (a.idx 0 0 * b.idx 1 0 + a.idx 1 0 * b.idx 1 1 + a.idx 2 0 * b.idx 1 2)
    (a.idx 0 0 * b.idx 2 0 + a.idx 1 0 * b.idx 2 1 + a.idx 2 0 * b.idx 2 2)
    (a.idx 0 1 * b.idx 0 0 + a.idx 1 1 * b.idx 0 1 + a.idx 2 1 * b.idx 0 2)
    (a.idx 0 1 * b.idx 1 0 + a.idx 1 1 * b.idx 1 1 + a.idx 2 1 * b.idx 1 2)
    (a.idx 0 1 * b.idx 2 0 + a.idx 1 1 * b.idx 2 1 + a.idx 2 1 * b.idx 2 2)
    (a.idx 0 2 * b.idx 0 0 + a.idx 1 2 * b.idx 0 1 + a.idx 2 2 * b.idx 0 2)
    (a.idx 0 2 * b.idx 1 0 + a.idx 1 2 * b.idx 1 1 + a.idx 2 2 * b.idx 1 2)
    (a.idx 0 2 * b.idx 2 0 + a.idx 1 2 * b.idx 2 1 + a.idx 2 2 * b.idx 2 2)

/-- Cast a rational 3x1 constant into the carrier `α` (a modelling helper:
the Rust constants are plain `f32` literals). -/
def Matrix3x1.ofQ [RatCast α] (m : Matrix3x1 ℚ) : Matrix3x1 α :=
  ⟨(m.m0 : α), (m.m1 : α), (m.m2 : α)⟩

/-- Cast a rational 3x3 constant into the carrier `α`. -/
def Matrix3x3.ofQ [RatCast α] (m : Matrix3x3 ℚ) : Matrix3x3 α :=
  ⟨(m.i0 : α), (m.i1 : α), (m.i2 : α), (m.i3 : α), (m.i4 : α), (m.i5 : α),
   (m.i6 : α), (m.i7 : α), (m.i8 : α)⟩

/-- The `ChromaticAdaptationMethod` enum of `src/chromatic_adaptation.rs`. -/
inductive ChromaticAdaptationMethod
  | XyzScaling
  | Bradford
  | VonKries
deriving DecidableEq, Repr

/-- Cone response domain matrix for the XYZ Scaling method (identity). -/
def XYZ_SCALING : Matrix3x3 ℚ :=
  Matrix3x3.new 1 0 0 0 1 0 0 0 1

/-- Cone response domain matrix for the Bradford method. -/
def BRADFORD : Matrix3x3 ℚ :=
  Matrix3x3.new 0.8951 0.2664 (-0.1614) (-0.7502) 1.7135 0.0367 0.0389 (-0.0685) 1.0296

/-- Inverse cone response domain matrix for the Bradford method. -/
def BRADFORD_INV : Matrix3x3 ℚ :=
  Matrix3x3.new 0.9869929 (-0.1470543) 0.1599627 0.4323053 0.5183603 0.0492912
    (-0.0085287) 0.0400428 0.9684867

/-- Cone response domain matrix for the Von Kries method. -/
def VON_KRIES : Matrix3x3 ℚ :=
  Matrix3x3.new 0.4002400 0.7076000 (-0.0808100) (-0.2263000) 1.1653200 0.0457000
    0 0 0.9182200

/-- Inverse cone response domain matrix for the Von Kries method. -/
def VON_KRIES_INV : Matrix3x3 ℚ :=
  Matrix3x3.new 1.8599364 (-1.1293816) 0.2198974 0.3611914 0.6388125 (-0.0000064)
    0 0 1.0890636

/-- `ChromaticAdaptationMethod::matrices`: returns `([MA], [MA]⁻¹)`. -/
def ChromaticAdaptationMethod.matrices :
    ChromaticAdaptationMethod → Matrix3x3 ℚ × Matrix3x3 ℚ
  | .XyzScaling => (XYZ_SCALING, XYZ_SCALING)
  | .Bradford => (BRADFORD, BRADFORD_INV)
  | .VonKries => (VON_KRIES, VON_KRIES_INV)

/- White point constants of `src/illuminant.rs` (`pub const A: Matrix3x1` ...). -/
namespace illuminant

def A : Matrix3x1 ℚ := ⟨1.09850, 1.00000, 0.35585⟩

def B : Matrix3x1 ℚ := ⟨0.99072, 1.00000, 0.85223⟩

def C : Matrix3x1 ℚ := ⟨0.98074, 1.00000, 1.18232⟩

def D50 : Matrix3x1 ℚ := ⟨0.96422, 1.00000, 0.82521⟩

def D55 : Matrix3x1 ℚ := ⟨0.95682, 1.00000, 0.92149⟩

def D65 : Matrix3x1 ℚ := ⟨0.95047, 1.00000, 1.08883⟩

def D75 : Matrix3x1 ℚ := ⟨0.94972, 1.00000, 1.22638⟩

def E : Matrix3x1 ℚ := ⟨1.00000, 1.00000, 1.00000⟩

def F2 : Matrix3x1 ℚ := ⟨0.99186, 1.00000, 0.67393⟩

def F7 : Matrix3x1 ℚ := ⟨0.95041, 1.00000, 1.08747⟩

def F11 : Matrix3x1 ℚ := ⟨1.00962, 1.00000, 0.64350⟩

end illuminant

/-- The `Illuminant` enum of `src/illuminant.rs`: named standard illuminants
plus an `Other` variant carrying an arbitrary 3-vector. -/
inductive Illuminant (α : Type)
  | A
  | B
  | C
  | D50
  | D55
  | D65
  | D75
  | E
  | F2
  | F7
  | F11
  | Other (m : Matrix3x1 α)
deriving DecidableEq, Repr

/-- `impl From<Illuminant> for Matrix3x1`: resolve an illuminant to its
white-point vector. -/
def Illuminant.toM31 [RatCast α] : Illuminant α → Matrix3x1 α
  | .A => illuminant.A.ofQ
  | .B => illuminant.B.ofQ
  | .C => illuminant.C.ofQ
  | .D50 => illuminant.D50.ofQ
  | .D55 => illuminant.D55.ofQ
  | .D65 => illuminant.D65.ofQ
  | .D75 => illuminant.D75.ofQ
  | .E => illuminant.E.ofQ
  | .F2 => illuminant.F2.ofQ
  | .F7 => illuminant.F7.ofQ
  | .F11 => illuminant.F11.ofQ
  | .Other m => m

/-- The `XyzValue` struct (`src/color.rs`). -/
structure XyzValue (α : Type) where
  x : α
  y : α
  z : α
deriving DecidableEq, Repr

/-- `impl From<XyzValue> for Matrix3x1`. -/
def XyzValue.toM31 (v : XyzValue α) : Matrix3x1 α := ⟨v.x, v.y, v.z⟩

/-- `impl From<Matrix3x1> for XyzValue`. -/
def Matrix3x1.toXyz (m : Matrix3x1 α) : XyzValue α := ⟨m.m0, m.m1, m.m2⟩

/-- The `ConeResponseDomain` struct (`src/chromatic_adaptation.rs`). -/
structure ConeResponseDomain (α : Type) where
  rho : α
  gamma : α
  beta : α

/-- `ConeResponseDomain::scaled_component_matrix`: the diagonal matrix of the
destination cone responses divided componentwise by the source ones. -/
def ConeResponseDomain.scaled_component_matrix [Div α] [Zero α]
    (self dest : ConeResponseDomain α) : Matrix3x3 α :=
  Matrix3x3.new (dest.rho / self.rho) 0 0 0 (dest.gamma / self.gamma) 0
    0 0 (dest.beta / self.beta)

/-- `impl From<Matrix3x1> for ConeResponseDomain`. -/
def Matrix3x1.toCRD (m : Matrix3x1 α) : ConeResponseDomain α := ⟨m.m0, m.m1, m.m2⟩

/-- `Illuminant::cone_response_domain`: `method_matrix * white_point`
(standard matrix-vector product). -/
def Illuminant.cone_response_domain [Add α] [Mul α] [RatCast α]
    (ill : Illuminant α) (method_matrix : Matrix3x3 α) : ConeResponseDomain α :=
  (method_matrix.mulVec ill.toM31).toCRD

/-- `XyzValue::chrom_adapt` (`src/chromatic_adaptation.rs`): short-circuits
when the two illuminants have equal white-point vectors (the `PartialEq` of
`Illuminant` compares resolved vectors), otherwise applies
`method_matrix_inv * scm * method_matrix` — with the source's `Matrix3x3`
multiplication — to the input vector. -/
def XyzValue.chrom_adapt [Add α] [Mul α] [Div α] [Zero α] [RatCast α] [DecidableEq α]
    (self : XyzValue α) (method : ChromaticAdaptationMethod)
    (illum_source illum_dest : Illuminant α) : XyzValue α :=
  if illum_source.toM31 = illum_dest.toM31 then self
  else
    let method_matrix := (method.matrices.1).ofQ (α := α)
    let method_matrix_inv := (method.matrices.2).ofQ (α := α)
    let crd_source := illum_source.cone_response_domain method_matrix
    let crd_dest := illum_dest.cone_response_domain method_matrix
    let scm := crd_source.scaled_component_matrix crd_dest
    let matrix := (method_matrix_inv.mul scm).mul method_matrix
    (matrix.mulVec self.toM31).toXyz

/-- Chromatic adaptation as the spec states it: the adapted value is
`M⁻¹ · diag(ρd/ρs, γd/γs, βd/βs) · M · xyz_source` with standard matrix
products, where `(ρ,γ,β) = M · white_point` for each illuminant.  This
definition follows the spec's words and is compared against the
source-translated `XyzValue.chrom_adapt`. -/
def XyzValue.chrom_adapt_spec [Add α] [Mul α] [Div α] [Zero α] [RatCast α] [DecidableEq α]
    (self : XyzValue α) (method : ChromaticAdaptationMethod)
    (illum_source illum_dest : Illuminant α) : XyzValue α :=
  if illum_source.toM31 = illum_dest.toM31 then self
  else
    let method_matrix := (method.matrices.1).ofQ (α := α)
    let method_matrix_inv := (method.matrices.2).ofQ (α := α)
    let crd_source := illum_source.cone_response_domain method_matrix
    let crd_dest := illum_dest.cone_response_domain method_matrix
    let scm := crd_source.scaled_component_matrix crd_dest
    let matrix := method_matrix_inv.stdProd (scm.stdProd method_matrix)
    (matrix.mulVec self.toM31).toXyz

/-- The reversed composition `M · diag · M⁻¹ · xyz` (standard products): what
the source actually computes, because its `Matrix3x3` multiplication swaps
its arguments.  Stated for comparison in the C2 theorem. -/
def XyzValue.chrom_adapt_reversed [Add α] [Mul α] [Div α] [Zero α] [RatCast α] [DecidableEq α]
    (self : XyzValue α) (method : ChromaticAdaptationMethod)
    (illum_source illum_dest : Illuminant α) : XyzValue α :=
  if illum_source.toM31 = illum_dest.toM31 then self
  else
    let method_matrix := (method.matrices.1).ofQ (α := α)
    let method_matrix_inv := (method.matrices.2).ofQ (α := α)
    let crd_source := illum_source.cone_response_domain method_matrix
    let crd_dest := illum_dest.cone_response_domain method_matrix
    let scm := crd_source.scaled_component_matrix crd_dest
    let matrix := method_matrix.stdProd (scm.stdProd method_matrix_inv)
    (matrix.mulVec self.toM31).toXyz

/-- A model of `f32` used for the NaN/Infinity claim: finite values are exact
rationals (rounding is immaterial to the production of special values at the
inputs considered) and the IEEE 754 special values are explicit, with a
single (positive) zero.  Note the structural `DecidableEq` equates `nan` with
itself, unlike the IEEE `==`; the short-circuit comparison in the claims
below only ever compares genuinely different finite vectors, where the two
coincide. -/
inductive F32
  | fin (q : ℚ)
  | inf
  | ninf
  | nan
deriving DecidableEq, Repr

/-- IEEE 754 addition on the `F32` model. -/
def F32.add : F32 → F32 → F32
  | nan, _ => nan
  | _, nan => nan
  | fin p, fin q => fin (p + q)
  | fin _, inf => inf
  | inf, fin _ => inf
  | fin _, ninf => ninf
  | ninf, fin _ => ninf
  | inf, inf => inf
  | ninf, ninf => ninf
  | inf, ninf => nan
  | ninf, inf => nan

/-- IEEE 754 multiplication on the `F32` model (`0 * ±∞ = NaN`). -/
def F32.mul : F32 → F32 → F32
  | nan, _ => nan
  | _, nan => nan
  | fin p, fin q => fin (p * q)
  | fin p, inf => if p = 0 then nan else if 0 < p then inf else ninf
  | inf, fin p => if p = 0 then nan else if 0 < p then inf else ninf
  | fin p, ninf => if p = 0 then nan else if 0 < p then ninf else inf
  | ninf, fin p => if p = 0 then nan else if 0 < p then ninf else inf
  | inf, inf => inf
  | ninf, ninf => inf
  | inf, ninf => ninf
  | ninf, inf => ninf

/-- IEEE 754 division on the `F32` model (`p / +0 = ±∞` for `p ≠ 0`,
`0 / 0 = NaN`). -/
def F32.div : F32 → F32 → F32
  | nan, _ => nan
  | _, nan => nan
  | fin p, fin q =>
      if q = 0 then (if p = 0 then nan else if 0 < p then inf else ninf)
      else fin (p / q)
  | fin _, inf => fin 0
  | fin _, ninf => fin 0
  | inf, fin q => if 0 ≤ q then inf else ninf
  | ninf, fin q => if 0 ≤ q then ninf else inf
  | inf, inf => nan
  | inf, ninf => nan
  | ninf, inf => nan
  | ninf, ninf => nan

instance : Add F32 := ⟨F32.add⟩

instance : Mul F32 := ⟨F32.mul⟩

instance : Div F32 := ⟨F32.div⟩

instance : Zero F32 := ⟨F32.fin 0⟩

instance : RatCast F32 := ⟨F32.fin⟩

/-- Whether an `F32` value is finite (neither an infinity nor NaN). -/
def F32.finite : F32 → Bool
  | fin _ => true
  | _ => false

/-- IEEE 754 negation on the `F32` model. -/
def F32.neg : F32 → F32
  | fin q => fin (-q)
  | inf => ninf
  | ninf => inf
  | nan => nan

/-- The IEEE 754 less-than comparison on the `F32` model: every comparison
involving NaN is false.  Rust's `a > b` on `f32` is `F32.lt b a`. -/
def F32.lt : F32 → F32 → Bool
  | nan, _ => false
  | _, nan => false
  | fin p, fin q => decide (p < q)
  | fin _, inf => true
  | fin _, ninf => false
  | inf, fin _ => false
  | ninf, fin _ => true
  | inf, inf => false
  | inf, ninf => false
  | ninf, inf => true
  | ninf, ninf => false

/-- The `RgbValue` struct of the source (`r g b : u8`), modelled with `ℕ`
(the u8 range plays no role in the claims; `nominalize` divides by 255). -/
structure RgbValue where
  r : ℕ
  g : ℕ
  b : ℕ
deriving DecidableEq, Repr

/-- The `RgbNominalValue` struct of `src/nominalize.rs`. -/
structure RgbNominalValue (α : Type) where
  r : α
  g : α
  b : α
deriving DecidableEq, Repr

/-- `impl Nominalize for RgbValue`: each channel divided by 255. -/
def RgbValue.nominalize [DivisionRing α] (rgb : RgbValue) : RgbNominalValue α :=
  ⟨(rgb.r : α) / 255, (rgb.g : α) / 255, (rgb.b : α) / 255⟩

/-- `impl From<RgbNominalValue> for Matrix3x1`. -/
def RgbNominalValue.toM31 (v : RgbNominalValue α) : Matrix3x1 α := ⟨v.r, v.g, v.b⟩

/-- `impl From<RgbValue> for Matrix3x1`: `Matrix3x1::from(rgb.nominalize())` —
note that no companding is applied. -/
def RgbValue.toM31 [DivisionRing α] (rgb : RgbValue) : Matrix3x1 α :=
  (rgb.nominalize (α := α)).toM31

/-- The `RgbSystem` enum of `src/rgb.rs`. -/
inductive RgbSystem
  | Adobe1998
  | Apple
  | Best
  | Bruce
  | CIE
  | ColorMatch
  | Don
  | ECI
  | EktaSpace
  | NTSC
  | PalSecam
  | ProPhoto
  | SMPTE
  | SRgb
  | WideGamut
deriving DecidableEq, Repr

/-- Matrix for converting AdobeRGB to XYZ with D65 Illuminant. -/
def ADOBERGB_1998_D65_RGB2XYZ : Matrix3x3 ℚ :=
  Matrix3x3.new 0.5767309 0.1855540 0.1881852 0.2973769 0.6273491 0.0752741
    0.0270343 0.0706872 0.9911085

/-- Matrix for converting AppleRGB to XYZ with D65 Illuminant. -/
def APPLERGB_D65_RGB2XYZ : Matrix3x3 ℚ :=
  Matrix3x3.new 0.4497288 0.3162486 0.1844926 0.2446525 0.6720283 0.0833192
    0.0251848 0.1411824 0.9224628

/-- Matrix for converting BestRGB to XYZ with D50 Illuminant. -/
def BESTRGB_D50_RGB2XYZ : Matrix3x3 ℚ :=
  Matrix3x3.new 0.6326696 0.2045558 0.1269946 0.2284569 0.7373523 0.0341908
    0.0000000 0.0095142 0.8156958

/-- Matrix for converting BetaRGB to XYZ with D50 Illuminant. -/
def BETARGB_D50_RGB2XYZ : Matrix3x3 ℚ :=
  Matrix3x3.new 0.6712537 0.1745834 0.1183829 0.3032726 0.6637861 0.0329413
    0.0000000 0.0407010 0.7845090

/-- Matrix for converting BruceRGB to XYZ with D65 Illuminant. -/
def BRUCERGB_D65_RGB2XYZ : Matrix3x3 ℚ :=
  Matrix3x3.new 0.4674162 0.2944512 0.1886026 0.2410115 0.6835475 0.0754410
    0.0219101 0.0736128 0.9933071

/-- Matrix for converting CIERGB to XYZ with E Illuminant. -/
def CIERGB_E_RGB2XYZ : Matrix3x3 ℚ :=
  Matrix3x3.new 0.4887180 0.3106803 0.2006017 0.1762044 0.8129847 0.0108109
    0.0000000 0.0102048 0.9897952

/-- Matrix for converting ColorMatchRGB to XYZ with D50 Illuminant. -/
def COLORMATCHRGB_D50_RGB2XYZ : Matrix3x3 ℚ :=
  Matrix3x3.new 0.5093439 0.3209071 0.1339691 0.2748840 0.6581315 0.0669845
    0.0242545 0.1087821 0.6921735

/-- Matrix for converting DonRGB4 to XYZ with D50 Illuminant. -/
def DONRGB4_D50_RGB2XYZ : Matrix3x3 ℚ :=
  Matrix3x3.new 0.6457711 0.1933511 0.1250978 0.2783496 0.6879702 0.0336802
    0.0037113 0.0179861 0.8035125

/-- Matrix for converting ECIRGB to XYZ with D50 Illuminant. -/
def ECIRGB_D50_RGB2XYZ : Matrix3x3 ℚ :=
  Matrix3x3.new 0.6502043 0.1780774 0.1359384 0.3202499 0.6020711 0.0776791
    0.0000000 0.0678390 0.7573710

/-- Matrix for converting EktaSpace to XYZ with D50 Illuminant. -/
def EKTASPACE_PS5_D50_RGB2XYZ : Matrix3x3 ℚ :=
  Matrix3x3.new 0.5938914 0.2729801 0.0973485 0.2606286 0.7349465 0.0044249
    0.0000000 0.0419969 0.7832131

/-- Matrix for converting NTSCRGB to XYZ with C Illuminant. -/
def NTSCRGB_C_RGB2XYZ : Matrix3x3 ℚ :=
  Matrix3x3.new 0.6068909 0.1735011 0.2003480 0.2989164 0.5865990 0.1144845
    0.0000000 0.0660957 1.1162243

/-- Matrix for converting PAL/SECAM RGB to XYZ with D65 Illuminant. -/
def PALSECAMRGB_D65_RGB2XYZ : Matrix3x3 ℚ :=
  Matrix3x3.new 0.4306190 0.3415419 0.1783091 0.2220379 0.7066384 0.0713236
    0.0201853 0.1295504 0.9390944

/-- Matrix for converting ProPhotoRGB to XYZ with D50 Illuminant. -/
def PROPHOTORGB_D50_RGB2XYZ : Matrix3x3 ℚ :=
  Matrix3x3.new 0.7976749 0.1351917 0.0313534 0.2880402 0.7118741 0.0000857
    0.0000000 0.0000000 0.8252100

/-- Matrix for converting SMPTE RGB to XYZ with D65 Illuminant. -/
def SMPTERGB_D65_RGB2XYZ : Matrix3x3 ℚ :=
  Matrix3x3.new 0.3935891 0.3652497 0.1916313 0.2124132 0.7010437 0.0865432
    0.0187423 0.1119313 0.9581563

/-- Matrix for converting sRGB to XYZ with D65 Illuminant. -/
def SRGB_D65_RGB2XYZ : Matrix3x3 ℚ :=
  Matrix3x3.new 0.4124564 0.3575761 0.1804375 0.2126729 0.7151522 0.0721750
    0.0193339 0.1191920 0.9503041

/-- Matrix for converting WideGamutRGB to XYZ with D50 Illuminant. -/
def WIDEGAMUTRGB_D50_RGB2XYZ : Matrix3x3 ℚ :=
  Matrix3x3.new 0.7161046 0.1009296 0.1471858 0.2581874 0.7249378 0.0168748
    0.0000000 0.0517813 0.7734287

/-- The matrix table selected inside `rgb_to_xyz` (`src/rgb.rs`). -/
def RgbSystem.rgb2xyz_matrix : RgbSystem → Matrix3x3 ℚ
  | .Adobe1998 => ADOBERGB_1998_D65_RGB2XYZ
  | .Apple => APPLERGB_D65_RGB2XYZ
  | .Best => BESTRGB_D50_RGB2XYZ
  | .Bruce => BRUCERGB_D65_RGB2XYZ
  | .CIE => CIERGB_E_RGB2XYZ
  | .ColorMatch => COLORMATCHRGB_D50_RGB2XYZ
  | .Don => DONRGB4_D50_RGB2XYZ
  | .ECI => ECIRGB_D50_RGB2XYZ
  | .EktaSpace => EKTASPACE_PS5_D50_RGB2XYZ
  | .NTSC => NTSCRGB_C_RGB2XYZ
  | .PalSecam => PALSECAMRGB_D65_RGB2XYZ
  | .ProPhoto => PROPHOTORGB_D50_RGB2XYZ
  | .SMPTE => SMPTERGB_D65_RGB2XYZ
  | .SRgb => SRGB_D65_RGB2XYZ
  | .WideGamut => WIDEGAMUTRGB_D50_RGB2XYZ

/-- `rgb_to_xyz` (`src/rgb.rs`): `matrix * Matrix3x1::from(rgb)`, where the
conversion of `rgb` to a vector only nominalizes — the inverse companding
functions defined in `src/matrix.rs` are never called. -/
def rgb_to_xyz [DivisionRing α] (rgb : RgbValue) (rgb_system : RgbSystem) : XyzValue α :=
  ((rgb_system.rgb2xyz_matrix.ofQ (α := α)).mulVec rgb.toM31).toXyz

/-- The `DEMethod` enum of `src/lib.rs`; the numeric parameters of `DECMC`
are modelled as `ℚ`. -/
inductive DEMethod
  | DE2000
  | DECMC (tl tc : ℚ)
  | DE1994G
  | DE1994T
  | DE1976
deriving DecidableEq, Repr

/-- The `DeltaE` struct of `src/lib.rs`: the method used and the computed
value. -/
structure DeltaE where
  method : DEMethod
  value : ℚ
deriving DecidableEq, Repr

/-- The derived `PartialEq` of `DeltaE`: compares the method tag and the
value. -/
def DeltaE.eq (a b : DeltaE) : Bool :=
  decide (a.method = b.method) && decide (a.value = b.value)

/-- `impl PartialEq<f32> for DeltaE`: compares only the numeric value. -/
def DeltaE.eqF32 (d : DeltaE) (f : ℚ) : Bool :=
  decide (d.value = f)

/-- `impl PartialOrd for DeltaE`: delegates to the values' `partial_cmp`
(total on the `ℚ` model of `f32`; the method tag is ignored). -/
def DeltaE.partial_cmp (a b : DeltaE) : Option Ordering :=
  if a.value < b.value then some .lt
  else if a.value = b.value then some .eq
  else some .gt

/-- The Rust `<=` operator derived from `PartialOrd`: true exactly when
`partial_cmp` returns `Less` or `Equal`. -/
def DeltaE.le (a b : DeltaE) : Bool :=
  match a.partial_cmp b with
  | some .lt => true
  | some .eq => true
  | _ => false

/-- The `Tolerance` tuple struct of `src/eq.rs`, wrapping a `DeltaE`. -/
structure Tolerance where
  de : DeltaE
deriving DecidableEq, Repr

/-- `impl Default for Tolerance`: DE2000 with value 1.0. -/
def Tolerance.default : Tolerance := ⟨⟨.DE2000, 1⟩⟩

/-- The blanket `DeltaEq::delta_eq` of `src/eq.rs`, generic over the `Delta`
capability (modelled as an explicit function argument): computes the delta
under the tolerance's method and compares it against the tolerance's
`DeltaE` with the Rust `<=`. -/
def delta_eq {A B : Type} (delta : A → B → DEMethod → DeltaE)
    (self : A) (other : B) (tolerance : Tolerance) : Bool :=
  (delta self other tolerance.de.method).le tolerance.de

/-- The `ValueError` enum of `src/color.rs`: the library's two error kinds. -/
inductive ValueError
  | OutOfBounds
  | BadFormat
deriving DecidableEq, Repr

/-- The `LabValue` struct of `src/color.rs`. -/
structure LabValue (α : Type) where
  l : α
  a : α
  b : α
deriving DecidableEq, Repr

/-- `LabValue::validate` (`src/color.rs`, identical ranges in
`src/validate.rs`): `Err(OutOfBounds)` when a component lies outside
`0..100` / `-128..128`, otherwise `Ok(self)`. -/
def LabValue.validate (lab : LabValue ℚ) : Except ValueError (LabValue ℚ) :=
  if lab.l < 0 ∨ lab.l > 100 ∨
     lab.a < -128 ∨ lab.a > 128 ∨
     lab.b < -128 ∨ lab.b > 128
  then .error .OutOfBounds
  else .ok lab

/-- The `LchValue` struct of `src/color.rs`. -/
structure LchValue (α : Type) where
  l : α
  c : α
  h : α
deriving DecidableEq, Repr

/-- The mathematical function computed by Rust's `f32::atan2(self = y, x)`:
the principal argument of the complex number `x + y·i`, in `(-π, π]`. -/
noncomputable def atan2 (y x : ℝ) : ℝ := Complex.arg ⟨x, y⟩

/-- Rust's `f32::to_degrees`: multiply by `180 / π`. -/
noncomputable def toDegrees (x : ℝ) : ℝ := x * (180 / Real.pi)

/-- `get_h_prime` (`src/convert.rs`): the hue angle `atan2(b, a)` converted
to degrees, with 360 added when negative. -/
noncomputable def get_h_prime (a b : ℝ) : ℝ :=
  let h_prime := toDegrees (atan2 b a)
  if h_prime < 0 then h_prime + 360 else h_prime

/-- `LabValue::to_lch` (`src/color.rs`; `From<CieLabValue> for LchValue` in
`src/convert.rs` is the same formula): `c = sqrt(a² + b²)`,
`h = get_h_prime(a, b)`. -/
noncomputable def LabValue.to_lch (lab : LabValue ℝ) : LchValue ℝ :=
  ⟨lab.l, Real.sqrt (lab.a ^ 2 + lab.b ^ 2), get_h_prime lab.a lab.b⟩

/-- Splits a character list at every separator matching `p`, keeping empty
segments — the behaviour of Rust's `str::split`. -/
def splitOnPred (p : Char → Bool) : List Char → List (List Char)
  | [] => [[]]
  | c :: rest =>
    let r := splitOnPred p rest
    if p c then [] :: r
    else
      match r with
      | h :: t => (c :: h) :: t
      | [] => [[c]]

/-- Model of `str::trim`: drop whitespace from both ends. -/
def trimChars (l : List Char) : List Char :=
  ((l.dropWhile Char.isWhitespace).reverse.dropWhile Char.isWhitespace).reverse

/-- The natural number denoted by a list of decimal digits. -/
def natOfDigits (l : List Char) : ℕ :=
  l.foldl (fun n c => 10 * n + (c.toNat - 48)) 0

/-- Whether a character list is a non-empty run of decimal digits. -/
def isDigits (l : List Char) : Bool :=
  !l.isEmpty && l.all Char.isDigit

/-- Mantissa of a decimal numeral: `D+`, `D+.D*` or `D*.D+`. -/
def parseMantissa (l : List Char) : Option ℚ :=
  match splitOnPred (fun c => c == '.') l with
  | [ip] => if isDigits ip then some (natOfDigits ip : ℚ) else none
  | [ip, fp] =>
      if isDigits ip && (fp.isEmpty || isDigits fp) then
        some ((natOfDigits ip : ℚ) + (natOfDigits fp : ℚ) / 10 ^ fp.length)
      else if ip.isEmpty && isDigits fp then
        some ((natOfDigits fp : ℚ) / 10 ^ fp.length)
      else none
  | _ => none

/-- Exponent part of a decimal numeral: optionally signed digits. -/
def parseExpPart (l : List Char) : Option ℤ :=
  match l with
  | '+' :: rest => if isDigits rest then some (natOfDigits rest : ℤ) else none
  | '-' :: rest => if isDigits rest then some (-(natOfDigits rest : ℤ)) else none
  | _ => if isDigits l then some (natOfDigits l : ℤ) else none

/-- ASCII lowercasing of a character list, for the case-insensitive special
float spellings. -/
def toLowerChars (l : List Char) : List Char := l.map Char.toLower

/-- Unsigned part of a float literal: the case-insensitive spellings `inf`,
`infinity` and `nan` accepted by Rust's `f32::from_str`, or a decimal
numeral with an optional `e`/`E` exponent. -/
def parseUnsigned (l : List Char) : Option F32 :=
  if toLowerChars l = ['i', 'n', 'f']
      ∨ toLowerChars l = ['i', 'n', 'f', 'i', 'n', 'i', 't', 'y'] then
    some F32.inf
  else if toLowerChars l = ['n', 'a', 'n'] then
    some F32.nan
  else
    match splitOnPred (fun c => c == 'e' || c == 'E') l with
    | [m] => (parseMantissa m).map F32.fin
    | [m, ex] =>
        match parseMantissa m, parseExpPart ex with
        | some q, some z => some (F32.fin (q * (10 : ℚ) ^ z))
        | _, _ => none
    | _ => none

/-- Model of Rust's `str::parse::<f32>`: an optional sign followed by a
decimal numeral (with optional exponent) or one of the case-insensitive
spellings `inf`/`infinity`/`nan`.  Finite values are kept exact in the `ℚ`
payload of `F32`; the special spellings produce the IEEE special values. -/
def parse_f32 (s : List Char) : Option F32 :=
  match s with
  | '+' :: rest => parseUnsigned rest
  | '-' :: rest => (parseUnsigned rest).map F32.neg
  | _ => parseUnsigned s

/-- `parse_str_to_vecf32` (`src/parse.rs`): split on commas, drop empty
segments, trim the rest, parse each token as `f32` discarding failures, and
demand exactly `length` tokens and `length` parsed numbers, else
`Err(BadFormat)`. -/
def parse_str_to_vecf32 (s : String) (length : ℕ) : Except ValueError (List F32) :=
  let collection := splitOnPred (fun c => c == ',') s.data
  let v := (collection.filter (fun item => !item.isEmpty)).map trimChars
  let split := v.filterMap parse_f32
  if v.length ≠ length ∨ split.length ≠ length then .error .BadFormat
  else .ok split

/-- `LabValue::validate` on the `F32` carrier, for the parsing pipeline:
the same strict-violation disjunction as `LabValue.validate`, with the IEEE
comparisons of `f32` — so an infinite component is rejected while a NaN
component passes, since every comparison involving NaN is false.  (Rust's
`x > c` on `f32` is `c < x`.) -/
def LabValue.validateF (lab : LabValue F32) : Except ValueError (LabValue F32) :=
  if lab.l.lt (F32.fin 0) || (F32.fin 100).lt lab.l ||
     lab.a.lt (F32.fin (-128)) || (F32.fin 128).lt lab.a ||
     lab.b.lt (F32.fin (-128)) || (F32.fin 128).lt lab.b
  then .error .OutOfBounds
  else .ok lab

/-- `impl FromStr for LabValue` (`src/parse.rs`): parse three floats, build
the value, then validate.  The fallback arm is unreachable because
`parse_str_to_vecf32` only succeeds with exactly three items (the source
indexes `split[0] split[1] split[2]` directly). -/
def LabValue.from_str (s : String) : Except ValueError (LabValue F32) :=
  match parse_str_to_vecf32 s 3 with
  | .error e => .error e
  | .ok split =>
    match split with
    | l :: a :: b :: _ => (LabValue.mk l a b).validateF
    | _ => .error .BadFormat

unseal Rat.add Rat.mul Rat.inv Nat.gcd Rat.ofScientific Rat.sub in
/-- C1: the claim states that `A * B` on `Matrix3x3` is the standard 3x3
product (entry `(i, j)` equal to `Σ_k A[row i, col k] * B[row k, col j]`).
This is false: at `A` with a single 1 at row 0, col 0 and `B` with a single 1
at row 0, col 1, the source's product (each result column `j` is
`rhs * self.col(j)`) yields the zero matrix, while the standard product has a
1 at row 0, col 1.  The source's `A * B` is exactly the standard product with
the arguments swapped, `B · A`. -/
theorem matrix3x3_mul_is_reversed_product :
    Matrix3x3.mul
        (Matrix3x3.new (1 : ℚ) 0 0 0 0 0 0 0 0)
        (Matrix3x3.new (0 : ℚ) 1 0 0 0 0 0 0 0)
      ≠ Matrix3x3.stdProd
        (Matrix3x3.new (1 : ℚ) 0 0 0 0 0 0 0 0)
        (Matrix3x3.new (0 : ℚ) 1 0 0 0 0 0 0 0)
    ∧ Matrix3x3.mul
        (Matrix3x3.new (1 : ℚ) 0 0 0 0 0 0 0 0)
        (Matrix3x3.new (0 : ℚ) 1 0 0 0 0 0 0 0)
      = Matrix3x3.stdProd
        (Matrix3x3.new (0 : ℚ) 1 0 0 0 0 0 0 0)
        (Matrix3x3.new (1 : ℚ) 0 0 0 0 0 0 0 0) := by
  refine ⟨by decide, by decide⟩

unseal Rat.add Rat.mul Rat.inv Nat.gcd Rat.ofScientific Rat.sub in
/-- C2: the claim states that `chrom_adapt` returns
`M⁻¹ · diag(ρd/ρs, γd/γs, βd/βs) · M · xyz_source`.  It does not: because the
source's `Matrix3x3` multiplication computes the product of its arguments in
swapped order, `method_matrix_inv * scm * method_matrix` evaluates to the
standard composition `M · diag · M⁻¹`, and the two differ at the concrete
input (Bradford, D65 → D50, xyz = (1/2, 1/3, 1/4)).  The second conjunct
shows, for every method, pair of illuminants and input, that the source
computes exactly the reversed composition. -/
theorem chrom_adapt_composes_in_reverse_order :
    (XyzValue.mk (1/2 : ℚ) (1/3) (1/4)).chrom_adapt .Bradford .D65 .D50
      ≠ (XyzValue.mk (1/2 : ℚ) (1/3) (1/4)).chrom_adapt_spec .Bradford .D65 .D50
    ∧ ∀ (method : ChromaticAdaptationMethod)
        (s d : Illuminant ℚ) (xyz : XyzValue ℚ),
        xyz.chrom_adapt method s d = xyz.chrom_adapt_reversed method s d := by
  constructor
  · decide
  · intro method s d xyz
    unfold XyzValue.chrom_adapt XyzValue.chrom_adapt_reversed
    by_cases h : s.toM31 = d.toM31
    · simp only [if_pos h]
    · rw [if_neg h, if_neg h]
      simp only [Matrix3x3.mul, Matrix3x3.mulVec, Matrix3x3.stdProd, Matrix3x3.col,
        Matrix3x3.from_cols, Matrix3x1.mulM33, Matrix3x3.new, Matrix3x3.idx,
        Matrix3x1.toXyz, XyzValue.mk.injEq]

/-- C5: if the source and destination illuminants resolve to equal white-point
vectors — including a named illuminant against an `Other` variant carrying
the same vector — `chrom_adapt` takes the short-circuit branch and returns
its input unchanged. -/
theorem chrom_adapt_short_circuit (method : ChromaticAdaptationMethod)
    (s d : Illuminant ℚ) (xyz : XyzValue ℚ)
    (h : s.toM31 = d.toM31) :
    xyz.chrom_adapt method s d = xyz := by
  unfold XyzValue.chrom_adapt
  rw [if_pos h]

unseal Rat.add Rat.mul Rat.inv Nat.gcd Rat.ofScientific Rat.sub in
/-- Witness for C5 at a concrete input: illuminant D65 against an `Other`
variant carrying the D65 vector, with the Bradford method. -/
theorem chrom_adapt_short_circuit_witness :
    (Illuminant.D65 : Illuminant ℚ).toM31
      = (Illuminant.Other (⟨0.95047, 1.00000, 1.08883⟩ : Matrix3x1 ℚ)).toM31
    ∧ (XyzValue.mk (1/2 : ℚ) (1/3) (1/4)).chrom_adapt .Bradford .D65
        (.Other ⟨0.95047, 1.00000, 1.08883⟩) = ⟨1/2, 1/3, 1/4⟩ :=
  ⟨by decide, chrom_adapt_short_circuit _ _ _ _ (by decide)⟩

unseal Rat.add Rat.mul Rat.inv Nat.gcd Rat.ofScientific Rat.sub in
/-- C4: the claim states that chromatic adaptation with an illuminant that
has a zero tristimulus component fails with an invalid-input condition and
never silently returns NaN or Infinity.  The code has no failure path at all:
`chrom_adapt` returns `XyzValue`, not a `Result`, and on the failing input —
XYZ-Scaling from `Other(0, 1, 1)` to D65 — it divides the destination cone
responses by the zero source component and silently returns `(NaN, NaN, NaN)`
(in the `F32` model with IEEE special values); every returned component is
non-finite. -/
theorem chrom_adapt_zero_illuminant_returns_nan_silently :
    (XyzValue.mk (F32.fin 1) (F32.fin 1) (F32.fin 1)).chrom_adapt .XyzScaling
        (.Other ⟨F32.fin 0, F32.fin 1, F32.fin 1⟩) .D65
      = ⟨F32.nan, F32.nan, F32.nan⟩
    ∧ (((XyzValue.mk (F32.fin 1) (F32.fin 1) (F32.fin 1)).chrom_adapt .XyzScaling
        (.Other ⟨F32.fin 0, F32.fin 1, F32.fin 1⟩) .D65).x.finite = false) := by
  refine ⟨by decide, by decide⟩

/-- Inverse sRGB companding as the spec states it: `v/12.92` when
`v ≤ 0.04045`, else `((v + 0.055)/1.055)^2.4`.  Follows the spec's words
(matching `compand_srgb_inv` in `src/matrix.rs`), for comparison against the
source-translated `rgb_to_xyz`. -/
noncomputable def compand_srgb_inv_spec (v : ℝ) : ℝ :=
  if v ≤ 0.04045 then v / 12.92 else ((v + 0.055) / 1.055) ^ (2.4 : ℝ)

/-- RGB→XYZ as the spec states it: nominalize, apply the inverse companding
to each channel, then multiply by the system's RGB→XYZ matrix.  Follows the
spec's words, for comparison with the source-translated `rgb_to_xyz`. -/
noncomputable def rgb_to_xyz_spec (rgb : RgbValue) (rgb_system : RgbSystem) : XyzValue ℝ :=
  let nom : RgbNominalValue ℝ := rgb.nominalize
  let comp : RgbNominalValue ℝ :=
    ⟨compand_srgb_inv_spec nom.r, compand_srgb_inv_spec nom.g, compand_srgb_inv_spec nom.b⟩
  ((rgb_system.rgb2xyz_matrix.ofQ (α := ℝ)).mulVec comp.toM31).toXyz

/-- C3: the claim states that the RGB→XYZ conversion applies the inverse
companding curve between nominalization and the matrix multiplication.  It
does not: `rgb_to_xyz` multiplies the merely nominalized channels by the
matrix (the companding functions in `src/matrix.rs` are dead code), so at
RGB(1,1,1) in sRGB — where the spec's curve takes its linear branch
`v/12.92` — the code's result differs from the spec's pipeline. -/
theorem rgb_to_xyz_skips_companding :
    rgb_to_xyz (α := ℝ) ⟨1, 1, 1⟩ .SRgb ≠ rgb_to_xyz_spec ⟨1, 1, 1⟩ .SRgb := by
  intro h
  have hx := congrArg XyzValue.x h
  simp only [rgb_to_xyz, rgb_to_xyz_spec, compand_srgb_inv_spec, RgbValue.nominalize,
    RgbValue.toM31, RgbNominalValue.toM31, RgbSystem.rgb2xyz_matrix, SRGB_D65_RGB2XYZ,
    Matrix3x3.ofQ, Matrix3x3.mulVec, Matrix3x3.idx, Matrix3x1.toXyz, Matrix3x3.new] at hx
  norm_num at hx

/-- C7: for every pair of color values (of any types carrying a delta
computation) and every tolerance, `delta_eq` returns true exactly when the
numeric value of the Delta-E computed under the tolerance's method is ≤ the
tolerance's numeric value — the method tag plays no role in the comparison —
and the default tolerance is DE2000 with threshold 1.0. -/
theorem delta_eq_iff_value_le :
    (∀ (A B : Type) (delta : A → B → DEMethod → DeltaE) (a : A) (b : B)
        (tol : Tolerance),
        delta_eq delta a b tol = true
          ↔ (delta a b tol.de.method).value ≤ tol.de.value)
    ∧ Tolerance.default = ⟨⟨.DE2000, 1⟩⟩ := by
  constructor
  · intro A B delta a b tol
    unfold delta_eq DeltaE.le DeltaE.partial_cmp
    rcases lt_trichotomy (delta a b tol.de.method).value tol.de.value with h | h | h
    · simp [h, le_of_lt h]
    · simp [h, le_of_eq h, lt_irrefl]
    · simp [not_lt_of_gt h, ne_of_gt h, not_le.mpr h]
  · rfl

/-- C10: two `DeltaE` values with different methods but equal numeric values
compare unequal under `==` yet `Equal` under `partial_cmp`, while comparing a
`DeltaE` against a bare float with `==` looks only at the numeric value — so
`DeltaE` equality and ordering are mutually inconsistent across methods. -/
theorem deltae_eq_and_ord_inconsistent (m1 m2 : DEMethod) (v : ℚ) (h : m1 ≠ m2) :
    DeltaE.eq ⟨m1, v⟩ ⟨m2, v⟩ = false
    ∧ DeltaE.partial_cmp ⟨m1, v⟩ ⟨m2, v⟩ = some .eq
    ∧ DeltaE.eqF32 ⟨m1, v⟩ v = true := by
  refine ⟨?_, ?_, ?_⟩
  · simp [DeltaE.eq, h]
  · simp [DeltaE.partial_cmp]
  · simp [DeltaE.eqF32]

/-- Witness for C10 at a concrete input: DE2000 versus DE1976, both with
value 1. -/
theorem deltae_eq_and_ord_inconsistent_witness :
    DEMethod.DE2000 ≠ DEMethod.DE1976
    ∧ (DeltaE.eq ⟨.DE2000, 1⟩ ⟨.DE1976, 1⟩ = false
       ∧ DeltaE.partial_cmp ⟨.DE2000, 1⟩ ⟨.DE1976, 1⟩ = some .eq
       ∧ DeltaE.eqF32 ⟨.DE2000, 1⟩ 1 = true) :=
  ⟨by simp, deltae_eq_and_ord_inconsistent DEMethod.DE2000 DEMethod.DE1976 1 (by simp)⟩

unseal Rat.add Rat.mul Rat.inv Nat.gcd Rat.ofScientific Rat.sub in
/-- C8: the validating constructor succeeds exactly when `0 ≤ L ≤ 100`,
`-128 ≤ a ≤ 128` and `-128 ≤ b ≤ 128`; the boundary values `(0, -128, 128)`
are accepted and `L = 100.0001` is rejected with `OutOfBounds`. -/
theorem lab_validate_iff_in_range :
    (∀ lab : LabValue ℚ,
        lab.validate = .ok lab
          ↔ (0 ≤ lab.l ∧ lab.l ≤ 100 ∧ -128 ≤ lab.a ∧ lab.a ≤ 128
             ∧ -128 ≤ lab.b ∧ lab.b ≤ 128))
    ∧ (LabValue.mk (0 : ℚ) (-128) 128).validate = .ok ⟨0, -128, 128⟩
    ∧ (LabValue.mk (100.0001 : ℚ) 0 0).validate = .error .OutOfBounds := by
  refine ⟨?_, by decide, by decide⟩
  intro lab
  unfold LabValue.validate
  split_ifs with h
  · refine iff_of_false (by simp) ?_
    intro hr
    obtain ⟨h1, h2, h3, h4, h5, h6⟩ := hr
    rcases h with h | h | h | h | h | h <;> linarith
  · push_neg at h
    exact iff_of_true rfl h

/-- Helper: `filterMap` strictly shortens a list as soon as one element maps
to `none`. -/
theorem length_filterMap_lt_of_none {A B : Type} (f : A → Option B) :
    ∀ l : List A, (∃ t ∈ l, f t = none) → (l.filterMap f).length < l.length := by
  intro l
  induction l with
  | nil => rintro ⟨t, ht, _⟩; cases ht
  | cons a as ih =>
    rintro ⟨t, ht, hf⟩
    rcases List.mem_cons.mp ht with rfl | hmem
    · rw [List.filterMap_cons, hf]
      have := List.length_filterMap_le f as
      simp only [List.length_cons]
      omega
    · rw [List.filterMap_cons]
      cases hfa : f a with
      | none =>
        have := List.length_filterMap_le f as
        simp only [List.length_cons]
        omega
      | some b =>
        have := ih ⟨t, hmem, hf⟩
        simp only [List.length_cons, List.length_cons]
        omega

/-- C6: `to_lch` produces `c = sqrt(a² + b²)` and
`h = atan2(b, a)` in degrees with 360 added when negative, and the resulting
hue always lies in `[0, 360)`. -/
theorem to_lch_polar_form_and_hue_range (lab : LabValue ℝ) :
    (lab.to_lch).c = Real.sqrt (lab.a ^ 2 + lab.b ^ 2)
    ∧ (lab.to_lch).h = (if toDegrees (atan2 lab.b lab.a) < 0
        then toDegrees (atan2 lab.b lab.a) + 360
        else toDegrees (atan2 lab.b lab.a))
    ∧ (lab.to_lch).h ∈ Set.Ico (0 : ℝ) 360 := by
  refine ⟨rfl, rfl, ?_⟩
  have hpi := Real.pi_pos
  have harg := Complex.arg_mem_Ioc ⟨lab.a, lab.b⟩
  obtain ⟨hlo, hhi⟩ := harg
  have hk : (0 : ℝ) < 180 / Real.pi := by positivity
  have hup : toDegrees (atan2 lab.b lab.a) ≤ 180 := by
    unfold toDegrees atan2
    calc Complex.arg ⟨lab.a, lab.b⟩ * (180 / Real.pi)
        ≤ Real.pi * (180 / Real.pi) := by
          exact mul_le_mul_of_nonneg_right hhi (le_of_lt hk)
      _ = 180 := by field_simp
  have hdown : -180 < toDegrees (atan2 lab.b lab.a) := by
    unfold toDegrees atan2
    have := mul_lt_mul_of_pos_right hlo hk
    calc (-180 : ℝ) = -Real.pi * (180 / Real.pi) := by field_simp; ring
      _ < Complex.arg ⟨lab.a, lab.b⟩ * (180 / Real.pi) := this
  show get_h_prime lab.a lab.b ∈ Set.Ico (0 : ℝ) 360
  unfold get_h_prime
  show (if toDegrees (atan2 lab.b lab.a) < 0
      then toDegrees (atan2 lab.b lab.a) + 360
      else toDegrees (atan2 lab.b lab.a)) ∈ Set.Ico (0 : ℝ) 360
  split_ifs with h0
  · exact Set.mem_Ico.mpr ⟨by linarith, by linarith⟩
  · exact Set.mem_Ico.mpr ⟨by linarith [not_lt.mp h0], by linarith⟩

unseal Rat.add Rat.mul Rat.inv Nat.gcd Rat.ofScientific Rat.sub in
/-- C9 counterexample: the claim states that parsing succeeds on every
comma-separated triple of numeric tokens and fails with `BadFormat` on every
input with the wrong token count or a non-numeric token.  All three parts
fail on the code: `"0, 0, 200"` is a numeric triple but parsing returns
`OutOfBounds` (the parsed value is also range-validated);
`"92.5,,33.5,-18.8"` splits into four comma-separated segments yet parses
successfully because empty segments are discarded before counting; and
`"nan, 0, 0"` carries a word token yet succeeds, because `f32::from_str`
accepts the `nan` spelling and NaN passes range validation (every comparison
with NaN is false). -/
theorem lab_from_str_claim_false :
    LabValue.from_str "0, 0, 200" = .error .OutOfBounds
    ∧ LabValue.from_str "92.5,,33.5,-18.8"
        = .ok ⟨F32.fin 92.5, F32.fin 33.5, F32.fin (-18.8)⟩
    ∧ LabValue.from_str "nan, 0, 0" = .ok ⟨F32.nan, F32.fin 0, F32.fin 0⟩ := by
  refine ⟨by decide, by decide, by decide⟩

unseal Rat.add Rat.mul Rat.inv Nat.gcd Rat.ofScientific Rat.sub in
/-- C9 (amended): parsing a Lab value succeeds on a comma-separated triple of
numeric tokens with extraneous whitespace tolerated, provided the values are
in the Lab ranges; it fails with `BadFormat` — distinct from `OutOfBounds` —
for every input whose comma-split, after discarding empty segments, has a
token count other than three or any token outside Rust's float grammar
(which also accepts the `inf`/`infinity`/`nan` spellings).  Numeric triples
out of range fail with `OutOfBounds` instead — including an infinite
component — while a NaN component passes validation and parsing succeeds. -/
theorem lab_from_str_amended (s : String)
    (h : (((splitOnPred (fun c => c == ',') s.data).filter
            (fun item => !item.isEmpty)).map trimChars).length ≠ 3
         ∨ ∃ t ∈ ((splitOnPred (fun c => c == ',') s.data).filter
            (fun item => !item.isEmpty)).map trimChars, parse_f32 t = none) :
    LabValue.from_str s = .error .BadFormat
    ∧ LabValue.from_str "92.5, 33.5, -18.8"
        = .ok ⟨F32.fin 92.5, F32.fin 33.5, F32.fin (-18.8)⟩
    ∧ LabValue.from_str "100.5, 0, 0" = .error .OutOfBounds
    ∧ LabValue.from_str "inf, 0, 0" = .error .OutOfBounds
    ∧ LabValue.from_str "-1e2, 0, 0" = .error .OutOfBounds := by
  refine ⟨?_, by decide, by decide, by decide, by decide⟩
  unfold LabValue.from_str parse_str_to_vecf32
  have hcond :
      (((splitOnPred (fun c => c == ',') s.data).filter
          (fun item => !item.isEmpty)).map trimChars).length ≠ 3
      ∨ ((((splitOnPred (fun c => c == ',') s.data).filter
          (fun item => !item.isEmpty)).map trimChars).filterMap parse_f32).length ≠ 3 := by
    rcases h with h | h
    · exact Or.inl h
    · by_cases hlen :
        (((splitOnPred (fun c => c == ',') s.data).filter
            (fun item => !item.isEmpty)).map trimChars).length = 3
      · right
        have := length_filterMap_lt_of_none parse_f32 _ h
        omega
      · exact Or.inl hlen
  rw [if_pos hcond]

unseal Rat.add Rat.mul Rat.inv Nat.gcd Rat.ofScientific Rat.sub in
/-- Witness for the amended C9 at a concrete input: `"92.5,33.5"` has two
tokens and fails with `BadFormat`. -/
theorem lab_from_str_amended_witness :
    LabValue.from_str "92.5,33.5" = .error .BadFormat :=
  (lab_from_str_amended "92.5,33.5" (Or.inl (by decide))).1

end Deltae
